import Mathlib

/-!
Shallow embedding of the pronunciation-assessment scoring pipeline in
`celery_app/services/analysis_audio/audio_analysis_service.py`.

Floating-point values are modelled as rationals (`ℚ`); Python strings as
`List Char`; fallible external calls (transcription, harmonicity analysis,
the generative-suggestion service, unexpected top-level exceptions) as
explicit `Except`/`Option` parameters of the orchestrator.
-/

namespace AudioAnalysis

/-- Per-clip clarity metrics, the dict produced by `compute_clarity_metrics`. -/
structure ClarityMetrics where
  snr : ℚ
  hnr : ℚ
  entropy : ℚ
  conf : ℚ
  stoi : ℚ
  deriving Repr, DecidableEq

/-- The dict produced by `compute_similarity_metrics`: `emb` is the fused
`0.5*emb_sim + 0.5*wer_sim` value, `wer` the strict text similarity. -/
structure SimilarityMetrics where
  emb : ℚ
  wer : ℚ
  txt_ref : List Char
  txt_sam : List Char
  deriving Repr, DecidableEq

/-- `normalize_ratio(n, d) = clip(n/d, 0, 1) if d > 0 else 0.0`. -/
def normalize_ratio (n d : ℚ) : ℚ :=
  if 0 < d then min 1 (max 0 (n / d)) else 0

/-- `composite_index(ref, sam, sim)`: weighted dot product of the seven
signals with weights `[0.15, 0.10, 0.15, 0.15, 0.15, 0.20, 0.10]`. -/
def composite_index (ref sam : ClarityMetrics) (sim : SimilarityMetrics) : ℚ :=
  (15/100) * normalize_ratio sam.snr ref.snr
    + (10/100) * normalize_ratio sam.hnr ref.hnr
    + (15/100) * normalize_ratio ref.entropy sam.entropy
    + (15/100) * normalize_ratio sam.conf ref.conf
    + (15/100) * normalize_ratio sam.stoi ref.stoi
    + (20/100) * sim.emb
    + (10/100) * sim.wer

/-- `classify_level(idx)`: threshold classifier, 1 best … 5 worst. -/
def classify_level (idx : ℚ) : Nat :=
  if idx ≥ 85/100 then 1
  else if idx ≥ 65/100 then 2
  else if idx ≥ 45/100 then 3
  else if idx ≥ 25/100 then 4
  else 5

/-- The pure core of `compute_similarity_metrics` once the transcription and
the pooled-embedding cosine similarity are given: it fuses the raw embedding
cosine similarity with the strict text similarity at 50/50 and stores the
fused value in the `emb` field. -/
def similarity_from_raw (emb_sim wer_sim : ℚ) (txt_ref txt_sam : List Char) :
    SimilarityMetrics :=
  { emb := (5/10) * emb_sim + (5/10) * wer_sim
    wer := wer_sim
    txt_ref := txt_ref
    txt_sam := txt_sam }

/-! ### Text similarity: `difflib.SequenceMatcher` (isjunk = None)

The Python scorer calls `SequenceMatcher(None, a, b).ratio()`. With
`isjunk = None` the `bjunk` set is empty, so only the autojunk "popular"
rule matters: when `len(b) ≥ 200`, elements occurring more than
`len(b) // 100 + 1` times in `b` are dropped from `b2j` (they cannot anchor
a match found by the inner DP loop but the extension loops still cross
them).  The engine below is parametrised by the two index-level Boolean
tests the algorithm performs, so that everything element-specific is
confined to `seqEq` / `notPopularAt`. -/

/-- `a[i] == b[j]`, false when either index is out of range. -/
def seqEq {α : Type _} [DecidableEq α] (a b : List α) (i j : Nat) : Bool :=
  match a[i]?, b[j]? with
  | some x, some y => decide (x = y)
  | _, _ => false

/-- Autojunk: an element is "popular" when `len(b) ≥ 200` and it occurs more
than `len(b) // 100 + 1` times in `b`. -/
def isPopular {α : Type _} [DecidableEq α] (b : List α) (x : α) : Bool :=
  decide (200 ≤ b.length) && decide (b.length / 100 + 1 < b.count x)

/-- `j` is a position of `b` usable by `b2j` (its element is not popular). -/
def notPopularAt {α : Type _} [DecidableEq α] (b : List α) (j : Nat) : Bool :=
  match b[j]? with
  | some y => !(isPopular b y)
  | none => true

/-- One iteration of the outer `for i in range(alo, ahi)` loop of
`find_longest_match`: folds over the `b2j[a[i]]` positions inside
`[blo, bhi)` in ascending order, building the new `j2len` table and updating
the best match `(besti, bestj, bestsize)` exactly when `bestsize < k`. -/
def flmRow (qcore : Nat → Nat → Bool) (i blo bhi : Nat)
    (j2len : Nat → Nat) (best : Nat × Nat × Nat) :
    (Nat → Nat) × (Nat × Nat × Nat) :=
  ((List.range' blo (bhi - blo)).filter (fun j => qcore i j)).foldl
    (fun acc j =>
      let k := (if j = 0 then 0 else j2len (j - 1)) + 1
      ((fun j' => if j' = j then k else acc.1 j'),
        if acc.2.2.2 < k then (i + 1 - k, j + 1 - k, k) else acc.2))
    ((fun _ => 0), best)

/-- The outer loop of `find_longest_match` over the rows `alo, …, ahi-1`. -/
def flmRows (qcore : Nat → Nat → Bool) (blo bhi : Nat) :
    List Nat → (Nat → Nat) → Nat × Nat × Nat → Nat × Nat × Nat
  | [], _, best => best
  | i :: rest, j2len, best =>
    let step := flmRow qcore i blo bhi j2len best
    flmRows qcore blo bhi rest step.1 step.2

/-- The first `while` loop of `find_longest_match`: extend the match
backwards over equal (non-junk; the junk set is empty here) elements. -/
def extendBack (qeq : Nat → Nat → Bool) (alo blo : Nat) :
    Nat → Nat × Nat × Nat → Nat × Nat × Nat
  | 0, best => best
  | fuel + 1, (bi, bj, bs) =>
    if alo < bi ∧ blo < bj then
      if qeq (bi - 1) (bj - 1) then
        extendBack qeq alo blo fuel (bi - 1, bj - 1, bs + 1)
      else (bi, bj, bs)
    else (bi, bj, bs)

/-- The second `while` loop of `find_longest_match`: extend forwards. -/
def extendFwd (qeq : Nat → Nat → Bool) (ahi bhi : Nat) :
    Nat → Nat × Nat × Nat → Nat × Nat × Nat
  | 0, best => best
  | fuel + 1, (bi, bj, bs) =>
    if bi + bs < ahi ∧ bj + bs < bhi then
      if qeq (bi + bs) (bj + bs) then
        extendFwd qeq ahi bhi fuel (bi, bj, bs + 1)
      else (bi, bj, bs)
    else (bi, bj, bs)

/-- `find_longest_match(alo, ahi, blo, bhi)` with an empty junk set: the
`j2len` dynamic program followed by the two extension loops (the two
junk-extension loops of CPython never fire since `bjunk = ∅`).  The fuel
`ahi + 1` dominates the number of iterations of either `while` loop. -/
def find_longest_match (qcore qeq : Nat → Nat → Bool)
    (alo ahi blo bhi : Nat) : Nat × Nat × Nat :=
  let core := flmRows qcore blo bhi (List.range' alo (ahi - alo))
    (fun _ => 0) (alo, blo, 0)
  extendFwd qeq ahi bhi (ahi + 1) (extendBack qeq alo blo (ahi + 1) core)

/-- Total size of the matching blocks of `get_matching_blocks`: recursively
split around each longest match.  Adjacent-block merging and the terminal
`(la, lb, 0)` sentinel do not change the total, which is all `ratio` uses.
Each recursive call shrinks `(ahi - alo) + (bhi - blo)` by at least 2, so
fuel `la + lb` at the top call never runs out. -/
def matchTotal (qcore qeq : Nat → Nat → Bool) :
    Nat → Nat → Nat → Nat → Nat → Nat
  | 0, _, _, _, _ => 0
  | fuel + 1, alo, ahi, blo, bhi =>
    let m := find_longest_match qcore qeq alo ahi blo bhi
    let i := m.1
    let j := m.2.1
    let k := m.2.2
    if k = 0 then 0
    else k
      + (if alo < i ∧ blo < j then matchTotal qcore qeq fuel alo i blo j else 0)
      + (if i + k < ahi ∧ j + k < bhi then
          matchTotal qcore qeq fuel (i + k) ahi (j + k) bhi else 0)

/-- `sum(triple[-1] for triple in get_matching_blocks())`: the total
matched size `M`, instantiated with the two index tests of the sequences
`a` and `b`. -/
def sm_match_total {α : Type _} [DecidableEq α] (a b : List α) : Nat :=
  matchTotal (fun i j => seqEq a b i j && notPopularAt b j)
    (fun i j => seqEq a b i j) (a.length + b.length) 0 a.length 0 b.length

/-- `SequenceMatcher(None, a, b).ratio() = 2*M/T` where `M` is the total
matched size and `T = len(a) + len(b)`; `1.0` when both are empty. -/
def sm_ratio {α : Type _} [DecidableEq α] (a b : List α) : ℚ :=
  if a.length + b.length = 0 then 1
  else 2 * (sm_match_total a b : ℚ) / ((a.length : ℚ) + (b.length : ℚ))

/-! ### Text similarity: the strict scorer -/

/-- The inner `for j, c2 in enumerate(s2)` loop of the Levenshtein dynamic
program: `prev` is the tail of `previous_row` aligned with `c2 :: s2`
(so `p0 = previous_row[j]`, `p1 = previous_row[j+1]`), `left` the last
entry appended to `current_row`. -/
def levInner (c1 : Char) : List Char → List Nat → Nat → List Nat
  | [], _, _ => []
  | c2 :: s2, p0 :: p1 :: prest, left =>
    let v := min (p1 + 1) (min (left + 1) (p0 + (if c1 = c2 then 0 else 1)))
    v :: levInner c1 s2 (p1 :: prest) v
  | _ :: _, _, _ => []

/-- The outer `for i, c1 in enumerate(s1)` loop: row `i` starts with
`i + 1` and continues with the inner loop. -/
def levRows : List Char → List Char → List Nat → Nat → List Nat
  | [], _, prev, _ => prev
  | c1 :: s1, s2, prev, i =>
    levRows s1 s2 ((i + 1) :: levInner c1 s2 prev (i + 1)) (i + 1)

/-- `levenshtein_distance` after the argument swap: `len(s1) ≥ len(s2)`. -/
def levenshtein_core (s1 s2 : List Char) : Nat :=
  if s2.length = 0 then s1.length
  else ((levRows s1 s2 (List.range (s2.length + 1)) 0).getLast?).getD 0

/-- The nested `levenshtein_distance` helper of
`compute_text_similarity_strict` (swaps so the first string is longest). -/
def levenshtein_distance (s1 s2 : List Char) : Nat :=
  if s1.length < s2.length then levenshtein_core s2 s1
  else levenshtein_core s1 s2

/-- A character survives `re.sub(r'[^一-龥a-zA-Z0-9]', '', ·)`. -/
def keepChar (c : Char) : Bool :=
  (0x4e00 ≤ c.toNat && c.toNat ≤ 0x9fa5)
    || (0x61 ≤ c.toNat && c.toNat ≤ 0x7a)
    || (0x41 ≤ c.toNat && c.toNat ≤ 0x5a)
    || (0x30 ≤ c.toNat && c.toNat ≤ 0x39)

/-- The cleaning step of `compute_text_similarity_strict`: strip every
character that is not a CJK ideograph, Latin letter or digit.  Note: no
lower-casing. -/
def cleanText (s : List Char) : List Char := s.filter keepChar

/-- `normalize_text`: same stripping, then `.lower()`.  (Defined in the
source but not called by `compute_text_similarity_strict`.) -/
def normalize_text (s : List Char) : List Char :=
  (s.filter keepChar).map Char.toLower

/-- `compute_text_similarity_strict(text_ref, text_sam)`. -/
def compute_text_similarity_strict (text_ref text_sam : List Char) : ℚ :=
  if '[' ∈ text_ref ∨ '[' ∈ text_sam then 0
  else
    let clean_ref := cleanText text_ref
    let clean_sam := cleanText text_sam
    if clean_ref.length = 0 ∧ clean_sam.length = 0 then 1
    else if clean_ref.length = 0 ∨ clean_sam.length = 0 then 0
    else
      let char_similarity := sm_ratio clean_ref clean_sam
      let word_similarity :=
        sm_ratio (clean_ref.map (fun c => [c])) (clean_sam.map (fun c => [c]))
      let max_len := max clean_ref.length clean_sam.length
      let edit_distance := levenshtein_distance clean_ref clean_sam
      let edit_similarity :=
        if 0 < max_len then 1 - (edit_distance : ℚ) / (max_len : ℚ) else 0
      min char_similarity (min word_similarity edit_similarity)

/-! ### HNR metric of `compute_clarity_metrics`

The harmonicity analysis yields a sequence of frame values, each either a
number or not-a-number; the code drops the `-200` sentinel, then the NaN
frames, and averages what remains. -/

/-- A harmonicity frame value: a number or NaN. -/
inductive FrameVal
  | nan
  | val (q : ℚ)
  deriving Repr, DecidableEq

/-- `values[values != -200]` (NaN ≠ -200, so NaN frames survive). -/
def hnrDropSentinel (values : List FrameVal) : List FrameVal :=
  values.filter (fun v => decide (v ≠ FrameVal.val (-200)))

/-- `valid_values[~np.isnan(valid_values)]`. -/
def hnrDropNaN (values : List FrameVal) : List ℚ :=
  values.filterMap (fun v => match v with
    | .nan => none
    | .val q => some q)

/-- The HNR branch of `compute_clarity_metrics` applied to the frame
values: mean of the valid frames when any remain and the mean lies in
`[-50, 50]`, otherwise the 5.0 default. -/
def hnr_from_values (values : List FrameVal) : ℚ :=
  let valid := hnrDropNaN (hnrDropSentinel values)
  if 0 < valid.length then
    let hnr_mean := valid.sum / (valid.length : ℚ)
    if -50 ≤ hnr_mean ∧ hnr_mean ≤ 50 then hnr_mean else 5
  else 5

/-- The HNR field including the `except` branch around the harmonicity
analysis, which also falls back to 5.0. -/
def hnr_metric (analysis : Except String (List FrameVal)) : ℚ :=
  match analysis with
  | .ok values => hnr_from_values values
  | .error _ => 5

/-! ### Suggestions and the orchestrator -/

/-- The fixed `level_msg` fallback table of `generate_gemini_suggestion`,
with the `.get(level, "請持續練習發音。")` default. -/
def level_msg (level : Nat) : String :=
  if level = 1 then "發音表現優秀！繼續保持練習。"
  else if level = 2 then "發音良好，可以針對細節微調。"
  else if level = 3 then "發音有進步空間，建議每天練習 10-15 分鐘。"
  else if level = 4 then "需要加強練習，建議從基本發音開始。"
  else if level = 5 then "建議尋求專業語音治療師協助。"
  else "請持續練習發音。"

/-- `generate_gemini_suggestion`: the external generative call either
yields a response text (stripped) or fails, in which case the canned
message for the level is returned. -/
def generate_gemini_suggestion (call : Except String String) (level : Nat) :
    String :=
  match call with
  | .ok text => text.trim
  | .error _ => level_msg level

/-- The result dict of `compute_scores_and_feedback`. -/
structure AnalysisResult where
  similarity : SimilarityMetrics
  clarity_ref : ClarityMetrics
  clarity_sam : ClarityMetrics
  index : ℚ
  level : Nat
  suggestions : String
  analysis_time : ℚ
  error : Option String
  deriving Repr, DecidableEq

/-- The fully-populated degraded result built by the top-level `except`
branch of `compute_scores_and_feedback`. -/
def degraded_result (msg : String) : AnalysisResult :=
  { similarity :=
      { emb := 0, wer := 0, txt_ref := "錯誤".toList, txt_sam := "錯誤".toList }
    clarity_ref := { snr := 0, hnr := 0, entropy := 0, conf := 0, stoi := 0 }
    clarity_sam := { snr := 0, hnr := 0, entropy := 0, conf := 0, stoi := 0 }
    index := 0
    level := 5
    suggestions := "系統分析失敗，請檢查音檔。"
    analysis_time := 0
    error := some msg }

/-- `compute_scores_and_feedback`: the orchestrator as a function of the
outcomes of its effectful sub-computations.  `exc` is `some msg` when an
unexpected exception escapes the stage-local handling inside the `try`
body (the stage calls themselves catch their own errors and return
defaults); `gemini` is the outcome of the generative-suggestion call;
`elapsed` the measured wall-clock time. -/
def compute_scores_and_feedback (exc : Option String)
    (similarity : SimilarityMetrics) (ref_clarity sam_clarity : ClarityMetrics)
    (gemini : Except String String) (elapsed : ℚ) : AnalysisResult :=
  match exc with
  | some e => degraded_result e
  | none =>
    let index0 := composite_index ref_clarity sam_clarity similarity
    let index1 := if similarity.wer < 3/10 then min index0 (4/10) else index0
    let index2 := if similarity.wer < 2/10 then min index1 (25/100) else index1
    let level0 := classify_level index2
    let adjust : Bool := decide (similarity.wer < 25/100) && decide (level0 ≤ 2)
    let level := if adjust then 4 else level0
    let index := if adjust then 35/100 else index2
    { similarity := similarity
      clarity_ref := ref_clarity
      clarity_sam := sam_clarity
      index := index
      level := level
      suggestions := generate_gemini_suggestion gemini level
      analysis_time := elapsed
      error := none }

/-- The composite index as the spec's weighted-dot sentence reads (its
words, not the code): the RAW, unfused embedding cosine similarity sits in
the 0.20 slot.  Defined only to compare against `composite_index` as the
code computes it. -/
def claimed_composite_index (ref sam : ClarityMetrics)
    (emb_raw text_sim : ℚ) : ℚ :=
  (15/100) * normalize_ratio sam.snr ref.snr
    + (10/100) * normalize_ratio sam.hnr ref.hnr
    + (15/100) * normalize_ratio ref.entropy sam.entropy
    + (15/100) * normalize_ratio sam.conf ref.conf
    + (15/100) * normalize_ratio sam.stoi ref.stoi
    + (20/100) * emb_raw
    + (10/100) * text_sim

/-- The valid HNR frames as the spec's words read: "the sentinel value
(e.g. -200) … and not-a-number — both must be filtered out before
averaging", i.e. one pass dropping sentinel and NaN frames together.
Defined only to compare against the code's two successive filters. -/
def spec_valid_frames (values : List FrameVal) : List ℚ :=
  values.filterMap (fun v => match v with
    | FrameVal.nan => none
    | FrameVal.val q => if q = -200 then none else some q)

/-! ## Helper lemmas -/

theorem classify_level_range (x : ℚ) :
    1 ≤ classify_level x ∧ classify_level x ≤ 5 := by
  unfold classify_level
  split_ifs <;> omega

theorem classify_level_of_le_quarter (x : ℚ) (hx : x ≤ 25/100) :
    classify_level x = 4 ∨ classify_level x = 5 := by
  unfold classify_level
  split_ifs with h1 h2 h3
  · exact absurd hx (by push_neg; linarith)
  · exact absurd hx (by push_neg; linarith)
  · exact absurd hx (by push_neg; linarith)
  · exact Or.inl rfl
  · exact Or.inr rfl

theorem level_valid_aux (exc : Option String) (sim : SimilarityMetrics)
    (ref sam : ClarityMetrics) (g : Except String String) (t : ℚ) :
    1 ≤ (compute_scores_and_feedback exc sim ref sam g t).level ∧
      (compute_scores_and_feedback exc sim ref sam g t).level ≤ 5 := by
  cases exc with
  | some e => exact ⟨by norm_num [compute_scores_and_feedback, degraded_result],
      by norm_num [compute_scores_and_feedback, degraded_result]⟩
  | none =>
    simp only [compute_scores_and_feedback]
    split_ifs <;> first
      | exact classify_level_range _
      | (constructor <;> norm_num)

theorem two_pass_filter_eq_spec (values : List FrameVal) :
    hnrDropNaN (hnrDropSentinel values) = spec_valid_frames values := by
  induction values with
  | nil => rfl
  | cons v vs ih =>
    cases v with
    | nan => simpa [hnrDropSentinel, hnrDropNaN, spec_valid_frames] using ih
    | val q =>
      by_cases hq : q = -200
      · subst hq
        simpa [hnrDropSentinel, hnrDropNaN, spec_valid_frames] using ih
      · simpa [hnrDropSentinel, hnrDropNaN, spec_valid_frames, hq] using ih

theorem seqEq_map {α β : Type _} [DecidableEq α] [DecidableEq β] (f : α → β)
    (hf : Function.Injective f) (a b : List α) (i j : Nat) :
    seqEq (a.map f) (b.map f) i j = seqEq a b i j := by
  unfold seqEq
  rw [List.getElem?_map, List.getElem?_map]
  cases a[i]? <;> cases b[j]? <;> simp [hf.eq_iff]

theorem notPopularAt_map {α β : Type _} [DecidableEq α] [DecidableEq β] (f : α → β)
    (hf : Function.Injective f) (b : List α) (j : Nat) :
    notPopularAt (b.map f) j = notPopularAt b j := by
  unfold notPopularAt
  rw [List.getElem?_map]
  cases hb : b[j]? with
  | none => rfl
  | some y =>
    simp [isPopular, List.count_map_of_injective _ f hf]

theorem sm_match_total_map {α β : Type _} [DecidableEq α] [DecidableEq β] (f : α → β)
    (hf : Function.Injective f) (a b : List α) :
    sm_match_total (a.map f) (b.map f) = sm_match_total a b := by
  unfold sm_match_total
  have hq1 : (fun i j => seqEq (a.map f) (b.map f) i j && notPopularAt (b.map f) j) =
      (fun i j => seqEq a b i j && notPopularAt b j) := by
    funext i j
    rw [seqEq_map f hf, notPopularAt_map f hf]
  have hq2 : (fun i j => seqEq (a.map f) (b.map f) i j) =
      (fun i j => seqEq a b i j) := by
    funext i j
    rw [seqEq_map f hf]
  rw [hq1, hq2, List.length_map, List.length_map]

theorem sm_ratio_map {α β : Type _} [DecidableEq α] [DecidableEq β] (f : α → β)
    (hf : Function.Injective f) (a b : List α) :
    sm_ratio (a.map f) (b.map f) = sm_ratio a b := by
  unfold sm_ratio
  rw [sm_match_total_map f hf, List.length_map, List.length_map]

theorem bracket_not_in_clean (s : List Char) : '[' ∉ cleanText s := by
  intro h
  exact absurd (List.of_mem_filter h) (by decide)

theorem cleanText_idem (s : List Char) : cleanText (cleanText s) = cleanText s := by
  simp [cleanText, List.filter_filter]

theorem strict_score_abc_eval :
    compute_text_similarity_strict "ABC".toList "abc".toList = 0 := by
  have hm : ¬('[' ∈ "ABC".toList ∨ '[' ∈ "abc".toList) := by decide
  have hc1 : cleanText "ABC".toList = "ABC".toList := by decide
  have hc2 : cleanText "abc".toList = "abc".toList := by decide
  have hs1 : sm_match_total ['A', 'B', 'C'] ['a', 'b', 'c'] = 0 := by decide
  have hs2 : sm_match_total [['A'], ['B'], ['C']] [['a'], ['b'], ['c']] = 0 := by decide
  have hl : levenshtein_distance ['A', 'B', 'C'] ['a', 'b', 'c'] = 3 := by decide
  simp only [compute_text_similarity_strict, hm, hc1, hc2]
  norm_num [sm_ratio, hs1, hs2, hl]

theorem strict_score_punct_eval :
    compute_text_similarity_strict "A!B?C".toList "ABC".toList = 1 := by
  have hm : ¬('[' ∈ "A!B?C".toList ∨ '[' ∈ "ABC".toList) := by decide
  have hc1 : cleanText "A!B?C".toList = "ABC".toList := by decide
  have hc2 : cleanText "ABC".toList = "ABC".toList := by decide
  have hs1 : sm_match_total ['A', 'B', 'C'] ['A', 'B', 'C'] = 3 := by decide
  have hs2 : sm_match_total [['A'], ['B'], ['C']] [['A'], ['B'], ['C']] = 3 := by decide
  have hl : levenshtein_distance ['A', 'B', 'C'] ['A', 'B', 'C'] = 0 := by decide
  simp only [compute_text_similarity_strict, hm, hc1, hc2]
  norm_num [sm_ratio, hs1, hs2, hl]

/-! ## Claim theorems -/

/-- C10: the base level classifier is antitone in the index — a larger
composite index never yields a numerically larger (worse) level. -/
theorem classify_level_antitone (x y : ℚ) (h : x ≤ y) :
    classify_level y ≤ classify_level x := by
  unfold classify_level
  split_ifs <;> first | omega | linarith

theorem classify_level_antitone_witness :
    (0 : ℚ) ≤ 1 ∧ classify_level 1 ≤ classify_level 0 :=
  ⟨by norm_num, classify_level_antitone 0 1 (by norm_num)⟩

/-- C1 counterexample: with both clarity records zero, raw embedding
cosine similarity 1 and text similarity 0, the code's composite index is
`0.20·(0.5·1 + 0.5·0) = 0.10`, not the `0.20·1 = 0.20` the claim's dot
product (raw embedding similarity in the 0.20 slot) demands. -/
theorem composite_index_fuses_before_weighting :
    composite_index ⟨0, 0, 0, 0, 0⟩ ⟨0, 0, 0, 0, 0⟩
        (similarity_from_raw 1 0 [] []) ≠
      claimed_composite_index ⟨0, 0, 0, 0, 0⟩ ⟨0, 0, 0, 0, 0⟩ 1 0 := by
  norm_num [composite_index, claimed_composite_index, normalize_ratio,
    similarity_from_raw]

/-- C1 amended: the 0.20 weight multiplies the fused similarity
`0.5·emb_similarity + 0.5·text_similarity` (the `emb` field stored by
`compute_similarity_metrics`), not the raw embedding cosine similarity;
with that reading the weighted dot product is exactly what
`composite_index` returns. -/
theorem composite_index_weights_fused_similarity (ref sam : ClarityMetrics)
    (emb_raw wer_sim : ℚ) (tr ts : List Char) :
    composite_index ref sam (similarity_from_raw emb_raw wer_sim tr ts) =
      claimed_composite_index ref sam
        ((5/10) * emb_raw + (5/10) * wer_sim) wer_sim := rfl

/-- C3: when an exception escapes the stage-local handling, the
orchestrator returns the fully-populated degraded result: every field
present with default/zero values, level 5, the generic apology suggestion
string, and `error` set to the captured message.  (In the embedding the
orchestrator is a total function, so it never raises to its caller.) -/
theorem pipeline_never_raises (msg : String) (sim : SimilarityMetrics)
    (ref sam : ClarityMetrics) (g : Except String String) (t : ℚ) :
    compute_scores_and_feedback (some msg) sim ref sam g t =
      { similarity := ⟨0, 0, "錯誤".toList, "錯誤".toList⟩
        clarity_ref := ⟨0, 0, 0, 0, 0⟩
        clarity_sam := ⟨0, 0, 0, 0, 0⟩
        index := 0
        level := 5
        suggestions := "系統分析失敗，請檢查音檔。"
        analysis_time := 0
        error := some msg } := rfl

/-- C9: a literal `[` in either raw transcript makes the strict text
similarity 0.0 immediately (the first branch of the scorer). -/
theorem marker_short_circuits_to_zero (s t : List Char)
    (h : '[' ∈ s ∨ '[' ∈ t) :
    compute_text_similarity_strict s t = 0 := by
  unfold compute_text_similarity_strict
  rw [if_pos h]

theorem marker_short_circuits_to_zero_witness :
    ('[' ∈ "[x]".toList ∨ '[' ∈ "abc".toList) ∧
      compute_text_similarity_strict "[x]".toList "abc".toList = 0 :=
  ⟨by decide, marker_short_circuits_to_zero _ _ (by decide)⟩

/-- C2: in a successful (non-degraded) run with text similarity below
0.20, the override caps the index at 0.25 before level classification, so
the result has level 4 or 5 and index at most 0.25; the final guard (which
only fires at level ≤ 2) cannot raise it again. -/
theorem low_text_similarity_caps_result (sim : SimilarityMetrics)
    (ref sam : ClarityMetrics) (g : Except String String) (t : ℚ)
    (h : sim.wer < 2/10) :
    ((compute_scores_and_feedback none sim ref sam g t).level = 4 ∨
      (compute_scores_and_feedback none sim ref sam g t).level = 5) ∧
    (compute_scores_and_feedback none sim ref sam g t).index ≤ 25/100 := by
  have h3 : sim.wer < 3/10 := h.trans_le (by norm_num)
  have h25 : sim.wer < 25/100 := h.trans_le (by norm_num)
  simp only [compute_scores_and_feedback, h, h3, h25, if_true, decide_True]
  set idx := min (min (composite_index ref sam sim) (4/10)) (25/100) with hidx
  have hle : idx ≤ 25/100 := min_le_right _ _
  rcases classify_level_of_le_quarter idx hle with h4 | h5
  · simp [h4, hle]
  · simp [h5, hle]

theorem low_text_similarity_caps_result_witness :
    ((⟨0, 0, [], []⟩ : SimilarityMetrics).wer < 2/10) ∧
    (((compute_scores_and_feedback none ⟨0, 0, [], []⟩ ⟨0, 0, 0, 0, 0⟩
          ⟨0, 0, 0, 0, 0⟩ (Except.error "e") 0).level = 4 ∨
        (compute_scores_and_feedback none ⟨0, 0, [], []⟩ ⟨0, 0, 0, 0, 0⟩
          ⟨0, 0, 0, 0, 0⟩ (Except.error "e") 0).level = 5) ∧
      (compute_scores_and_feedback none ⟨0, 0, [], []⟩ ⟨0, 0, 0, 0, 0⟩
          ⟨0, 0, 0, 0, 0⟩ (Except.error "e") 0).index ≤ 25/100) :=
  ⟨by show (0 : ℚ) < 2/10; norm_num,
    low_text_similarity_caps_result ⟨0, 0, [], []⟩ ⟨0, 0, 0, 0, 0⟩
      ⟨0, 0, 0, 0, 0⟩ (Except.error "e") 0 (by show (0 : ℚ) < 2/10; norm_num)⟩

/-- C5: when the suggestion-generation call fails, the failure does not
propagate: the returned suggestions string is the canned message selected
by the computed level from the fixed table (the level is in 1..5, so it is
one of the five entries), and the run completes with `error = none`. -/
theorem suggestion_failure_contained (err : String) (sim : SimilarityMetrics)
    (ref sam : ClarityMetrics) (t : ℚ) :
    (compute_scores_and_feedback none sim ref sam (Except.error err) t).suggestions =
        level_msg (compute_scores_and_feedback none sim ref sam (Except.error err) t).level ∧
      1 ≤ (compute_scores_and_feedback none sim ref sam (Except.error err) t).level ∧
      (compute_scores_and_feedback none sim ref sam (Except.error err) t).level ≤ 5 ∧
      (compute_scores_and_feedback none sim ref sam (Except.error err) t).error = none := by
  refine ⟨rfl, (level_valid_aux none sim ref sam (Except.error err) t).1,
    (level_valid_aux none sim ref sam (Except.error err) t).2, rfl⟩

/-- C6: for every outcome of the pipeline — normal, override-adjusted or
degraded — the level is one of 1..5 and the index is a (finite) rational;
in this embedding finiteness is the totality of the ℚ-valued function,
recorded as the existence of a rational the index equals. -/
theorem result_level_valid_index_finite (exc : Option String)
    (sim : SimilarityMetrics) (ref sam : ClarityMetrics)
    (g : Except String String) (t : ℚ) :
    (1 ≤ (compute_scores_and_feedback exc sim ref sam g t).level ∧
      (compute_scores_and_feedback exc sim ref sam g t).level ≤ 5) ∧
    ∃ q : ℚ, (compute_scores_and_feedback exc sim ref sam g t).index = q :=
  ⟨level_valid_aux exc sim ref sam g t, ⟨_, rfl⟩⟩

/-- C8: the HNR computation drops the `-200` sentinel and the NaN frames
before averaging, and yields the 5.0 default exactly when no valid frame
remains or the mean of the valid frames falls outside `[-50, 50]`;
otherwise it yields that mean.  (`spec_valid_frames` is the spec's single
"both filtered out" pass; the code filters in two passes.) -/
theorem hnr_filters_then_defaults (values : List FrameVal) :
    hnr_from_values values =
      if spec_valid_frames values = [] then 5
      else if -50 ≤ (spec_valid_frames values).sum / ((spec_valid_frames values).length : ℚ) ∧
          (spec_valid_frames values).sum / ((spec_valid_frames values).length : ℚ) ≤ 50
      then (spec_valid_frames values).sum / ((spec_valid_frames values).length : ℚ)
      else 5 := by
  unfold hnr_from_values
  rw [two_pass_filter_eq_spec]
  rcases eq_or_ne (spec_valid_frames values) [] with hv | hv
  · simp [hv]
  · have hpos : 0 < (spec_valid_frames values).length := List.length_pos.mpr hv
    simp [hv, hpos]

/-- C7: the "word-level" similarity (the sequence ratio over the string
split into singleton-character lists, as `list(clean)` yields in Python)
coincides with the character-level sequence ratio on every pair of
non-empty normalized strings, because the matcher only ever compares
elements for equality and `c ↦ [c]` is injective. -/
theorem word_level_ratio_eq_char_ratio (s t : List Char)
    (hs : s ≠ []) (ht : t ≠ []) :
    sm_ratio (s.map fun c => [c]) (t.map fun c => [c]) = sm_ratio s t :=
  sm_ratio_map (fun c => [c]) (fun c d h => by injection h) s t

theorem word_level_ratio_eq_char_ratio_witness :
    ("ab".toList ≠ [] ∧ "ac".toList ≠ []) ∧
      sm_ratio ("ab".toList.map fun c => [c]) ("ac".toList.map fun c => [c]) =
        sm_ratio "ab".toList "ac".toList :=
  ⟨⟨by decide, by decide⟩,
    word_level_ratio_eq_char_ratio "ab".toList "ac".toList (by decide) (by decide)⟩

/-- C4 counterexample: the scorer never lower-cases (only the unused
`normalize_text` helper does), so `score("ABC", "abc")` is 0.0, not the
1.0 the claim asserts. -/
theorem strict_score_not_case_invariant :
    compute_text_similarity_strict "ABC".toList "abc".toList ≠ 1 := by
  rw [strict_score_abc_eval]
  norm_num

/-- C4 amended: the normalization strips everything except CJK ideographs,
Latin letters and digits — the score of marker-free inputs depends only on
the stripped strings — but it does not lower-case, so the score is
case-sensitive: `score("A!B?C", "ABC") = 1.0` while
`score("ABC", "abc") = 0.0`. -/
theorem strict_score_case_sensitive :
    (∀ s t : List Char, '[' ∉ s → '[' ∉ t →
      compute_text_similarity_strict s t =
        compute_text_similarity_strict (cleanText s) (cleanText t)) ∧
    compute_text_similarity_strict "A!B?C".toList "ABC".toList = 1 ∧
    compute_text_similarity_strict "ABC".toList "abc".toList = 0 := by
  refine ⟨?_, strict_score_punct_eval, strict_score_abc_eval⟩
  intro s t hs ht
  have h1 : ¬('[' ∈ s ∨ '[' ∈ t) := by
    push_neg
    exact ⟨hs, ht⟩
  have h2 : ¬('[' ∈ cleanText s ∨ '[' ∈ cleanText t) := by
    push_neg
    exact ⟨bracket_not_in_clean s, bracket_not_in_clean t⟩
  unfold compute_text_similarity_strict
  rw [if_neg h1, if_neg h2, cleanText_idem, cleanText_idem]

theorem strict_score_case_sensitive_witness :
    ('[' ∉ "a,b".toList) ∧ ('[' ∉ "ab".toList) ∧
      compute_text_similarity_strict "a,b".toList "ab".toList =
        compute_text_similarity_strict (cleanText "a,b".toList) (cleanText "ab".toList) :=
  ⟨by decide, by decide,
    strict_score_case_sensitive.1 "a,b".toList "ab".toList (by decide) (by decide)⟩

end AudioAnalysis
